import Mathlib

/-!
Verification development for the `ctavolazzi.github.io` gallery-generation
tooling: a shallow embedding of `pixellab_client.py` (HTTP client for the
Pixel Lab API) and `scripts/generate_gallery.py` (batch driver that generates
pixel-art images and writes a manifest), together with theorems settling the
specification's claims.

Conventions of the embedding:
* Python strings are `String` (or `List Char` where character-level reasoning
  is needed), bytes are `List Nat`, dicts preserving insertion order are
  association lists `List (String × JVal)`.
* Fallible Python code returns `Option`; a raised exception a caller catches
  is `none` (or a dedicated constructor of a result type).
* I/O effects of the batch driver (network calls, filesystem writes,
  `sys.exit`) are recorded as an explicit event trace; wall-clock timestamps
  (`datetime.now()` in manifest entries) are outside the embedding and
  omitted from `ManifestEntry`.
-/

namespace Gallery

/-! ## Python string truthiness

`if not api_key:` in `generate_gallery` is Python truthiness on
`Optional[str]`: `None` and the empty string are falsy. -/

def pyTruthyStr : Option String → Bool
  | none => false
  | some s => !s.isEmpty

/-! ## Base64 decoding (`base64.b64decode`, default `validate=False`)

Characters outside the base64 alphabet are discarded before decoding; the
remaining text must split into 4-character groups with `=` padding only at
the very end, otherwise `binascii.Error` is raised (modelled as `none`).
Bytes are `Nat` values below 256. -/

def b64Index (c : Char) : Option Nat :=
  if 'A' ≤ c ∧ c ≤ 'Z' then some (c.toNat - 'A'.toNat)
  else if 'a' ≤ c ∧ c ≤ 'z' then some (c.toNat - 'a'.toNat + 26)
  else if '0' ≤ c ∧ c ≤ '9' then some (c.toNat - '0'.toNat + 52)
  else if c = '+' then some 62
  else if c = '/' then some 63
  else none

def b64Filter (s : List Char) : List Char :=
  s.filter (fun c => (b64Index c).isSome || c == '=')

def b64DecodeChunks : List Char → Option (List Nat)
  | [] => some []
  | c1 :: c2 :: c3 :: c4 :: rest =>
    match b64Index c1, b64Index c2 with
    | some i1, some i2 =>
      if c3 = '=' then
        if c4 = '=' ∧ rest = [] then
          some [i1 * 4 + i2 / 16]
        else none
      else
        match b64Index c3 with
        | some i3 =>
          if c4 = '=' then
            if rest = [] then
              some [i1 * 4 + i2 / 16, (i2 % 16) * 16 + i3 / 4]
            else none
          else
            match b64Index c4, b64DecodeChunks rest with
            | some i4, some tl =>
              some ((i1 * 4 + i2 / 16) :: ((i2 % 16) * 16 + i3 / 4) ::
                    ((i3 % 4) * 64 + i4) :: tl)
            | _, _ => none
        | none => none
    | _, _ => none
  | _ => none

def b64decode (s : List Char) : Option (List Nat) :=
  b64DecodeChunks (b64Filter s)

/-! ## `save_base64_image` (scripts/generate_gallery.py)

```python
if "," in base64_data:
    base64_data = base64_data.split(",")[1]
image_bytes = base64.b64decode(base64_data)
```

`str.split(",")` for the one-character separator is splitting on the comma
character; `splitOnComma` mirrors Python's semantics exactly
(`"".split(",") == [""]`, `"a,".split(",") == ["a", ""]`, ...). -/

def splitOnComma : List Char → List (List Char)
  | [] => [[]]
  | c :: rest =>
    match splitOnComma rest with
    | [] => [[]]
    | r :: rs => if c = ',' then [] :: r :: rs else (c :: r) :: rs

/-- Payload selection of `save_base64_image`: strip everything up to the
first comma (keeping the segment `split(",")[1]`) when a comma is present.
When a comma is present `split` returns at least two pieces, so the
`getD` default is never used. -/
def extractPayload (s : List Char) : List Char :=
  if ',' ∈ s then (splitOnComma s).getD 1 [] else s

/-- The bytes `save_base64_image` writes to the output file: `some bytes` on
success, `none` when `base64.b64decode` raises (the function then catches
the exception and returns `False`, writing nothing). -/
def saveBase64ImageBytes (s : List Char) : Option (List Nat) :=
  b64decode (extractPayload s)

theorem splitOnComma_ne_nil (l : List Char) : splitOnComma l ≠ [] := by
  cases l with
  | nil => simp [splitOnComma]
  | cons c rest =>
    simp only [splitOnComma]
    cases splitOnComma rest with
    | nil => simp
    | cons r rs =>
      by_cases hc : c = ','
      · simp [hc]
      · simp [hc]

theorem splitOnComma_nocomma (a : List Char) (h : ',' ∉ a) :
    splitOnComma a = [a] := by
  induction a with
  | nil => rfl
  | cons c rest ih =>
    have hc : c ≠ ',' := fun he => h (he ▸ List.mem_cons_self c rest)
    have hr : ',' ∉ rest := fun hm => h (List.mem_cons_of_mem c hm)
    simp [splitOnComma, ih hr, hc]

theorem splitOnComma_comma_split (a l : List Char) (h : ',' ∉ a) :
    splitOnComma (a ++ ',' :: l) = a :: splitOnComma l := by
  induction a with
  | nil =>
    simp only [List.nil_append, splitOnComma]
    cases hs : splitOnComma l with
    | nil => exact absurd hs (splitOnComma_ne_nil l)
    | cons r rs => simp
  | cons c rest ih =>
    have hc : c ≠ ',' := fun he => h (he ▸ List.mem_cons_self c rest)
    have hr : ',' ∉ rest := fun hm => h (List.mem_cons_of_mem c hm)
    simp only [List.cons_append, splitOnComma]
    rw [show rest.append (',' :: l) = rest ++ ',' :: l from rfl, ih hr]
    simp [hc]

/-- C3: stripping behaviour of `save_base64_image`. For every comma-free
base64 payload `s`, prepending the data-URL marker
`"data:image/png;base64,"` leaves the decoded bytes unchanged: the code
splits on the comma and decodes exactly `s` in both cases. -/
theorem save_base64_strips_dataUrl_marker (s : List Char) (h : ',' ∉ s) :
    saveBase64ImageBytes ("data:image/png;base64,".toList ++ s) =
      saveBase64ImageBytes s := by
  have hpre : "data:image/png;base64,".toList =
      "data:image/png;base64".toList ++ [','] := by decide
  have hp0 : ',' ∉ "data:image/png;base64".toList := by decide
  have hform : "data:image/png;base64,".toList ++ s =
      "data:image/png;base64".toList ++ ',' :: s := by
    rw [hpre, List.append_assoc]; rfl
  have hmem : ',' ∈ "data:image/png;base64".toList ++ ',' :: s :=
    List.mem_append_right _ (List.mem_cons_self _ _)
  have hsplit := splitOnComma_comma_split "data:image/png;base64".toList s hp0
  have hs1 : extractPayload ("data:image/png;base64,".toList ++ s) = s := by
    rw [hform]
    unfold extractPayload
    rw [if_pos hmem, hsplit, splitOnComma_nocomma s h]
    rfl
  have hs2 : extractPayload s = s := by
    unfold extractPayload
    rw [if_neg h]
  unfold saveBase64ImageBytes
  rw [hs1, hs2]

/-- C3 witness: the concrete input from the specification. The marker-free
payload `"aGVsbG8="` is comma-free, and the prefixed input decodes to the
same bytes, namely the ASCII bytes of `"hello"`. -/
theorem save_base64_strips_dataUrl_marker_witness :
    (',' ∉ "aGVsbG8=".toList) ∧
      saveBase64ImageBytes ("data:image/png;base64,".toList ++ "aGVsbG8=".toList) =
        saveBase64ImageBytes "aGVsbG8=".toList ∧
      saveBase64ImageBytes "aGVsbG8=".toList = some [104, 101, 108, 108, 111] :=
  ⟨by decide, save_base64_strips_dataUrl_marker "aGVsbG8=".toList (by decide),
    by decide⟩

/-- C9: on an input with two or more commas, `save_base64_image` decodes
exactly the segment strictly between the first and the second comma
(`split(",")[1]`); everything after the second comma is discarded. Any such
input factors uniquely as `a ++ ',' :: b ++ ',' :: c` with `a`, `b`
comma-free. -/
theorem save_base64_second_segment (a b c : List Char)
    (ha : ',' ∉ a) (hb : ',' ∉ b) :
    extractPayload (a ++ ',' :: b ++ ',' :: c) = b ∧
      saveBase64ImageBytes (a ++ ',' :: b ++ ',' :: c) = b64decode b := by
  have hmem : ',' ∈ a ++ ',' :: b ++ ',' :: c :=
    List.mem_append_right _ (List.mem_cons_self _ _)
  have hassoc : a ++ ',' :: b ++ ',' :: c = a ++ ',' :: (b ++ ',' :: c) := by
    simp
  have hsplit : splitOnComma (a ++ ',' :: b ++ ',' :: c) =
      a :: b :: splitOnComma c := by
    rw [hassoc, splitOnComma_comma_split a _ ha, splitOnComma_comma_split b c hb]
  have hpay : extractPayload (a ++ ',' :: b ++ ',' :: c) = b := by
    unfold extractPayload
    rw [if_pos hmem, hsplit]
    rfl
  exact ⟨hpay, by unfold saveBase64ImageBytes; rw [hpay]⟩

/-- C9 witness: with input `"data:image/png;base64,AAAA,junk"` only the
middle segment `"AAAA"` is decoded. -/
theorem save_base64_second_segment_witness :
    extractPayload ("data:image/png;base64".toList ++ ',' :: "AAAA".toList ++
        ',' :: "junk".toList) = "AAAA".toList ∧
      saveBase64ImageBytes ("data:image/png;base64".toList ++ ',' :: "AAAA".toList ++
        ',' :: "junk".toList) = b64decode "AAAA".toList :=
  save_base64_second_segment "data:image/png;base64".toList "AAAA".toList
    "junk".toList (by decide) (by decide)

/-! ## `PixelLabClient._poll_background_job` (pixellab_client.py)

```python
start_time = time.time()
while time.time() - start_time < max_wait:
    response = self._make_request("GET", f"/background-jobs/.../job_id")
    status = response.get("data", dict()).get("status")
    if status == "completed":
        return response.get("data", dict())
    elif status == "failed":
        raise RuntimeError(...)   # message carries job_id and response error
    time.sleep(2)  # Poll every 2 seconds
raise TimeoutError(...)
```

The poll issued on loop iteration `n` happens `2 * n` seconds after the
start (requests themselves are modelled as instantaneous), so the loop
guard for iteration `n` is `2 * n < max_wait` and the number of iterations
is `(max_wait + 1) / 2`. The sequence of GET results is an oracle
`responses : Nat → JobResponse`. -/

structure JobData where
  status : Option String
  fields : List (String × String)
deriving DecidableEq, Repr

structure JobResponse where
  data : Option JobData
  error : Option String
deriving DecidableEq, Repr

def emptyJobData : JobData := ⟨none, []⟩

/-- Python `response.get("data", dict())`. -/
def respData (r : JobResponse) : JobData := r.data.getD emptyJobData

/-- Python `response.get("data", dict()).get("status")`. -/
def respStatus (r : JobResponse) : Option String := (respData r).status

inductive PollResult where
  | completed (data : JobData)
  | jobFailed (jobId : String) (error : Option String)
  | timedOut (jobId : String) (maxWait : Nat)
deriving DecidableEq, Repr

/-- A polled response that is neither `completed` nor `failed`. -/
def nonterminal (responses : Nat → JobResponse) (n : Nat) : Prop :=
  respStatus (responses n) ≠ some "completed" ∧
    respStatus (responses n) ≠ some "failed"

instance (responses : Nat → JobResponse) (n : Nat) :
    Decidable (nonterminal responses n) := by
  unfold nonterminal; infer_instance

def pollGo (jobId : String) (responses : Nat → JobResponse) (maxWait : Nat) :
    Nat → Nat → PollResult
  | _n, 0 => PollResult.timedOut jobId maxWait
  | n, fuel + 1 =>
    if respStatus (responses n) = some "completed" then
      PollResult.completed (respData (responses n))
    else if respStatus (responses n) = some "failed" then
      PollResult.jobFailed jobId (responses n).error
    else
      pollGo jobId responses maxWait (n + 1) fuel

def pollBackgroundJob (jobId : String) (responses : Nat → JobResponse)
    (maxWait : Nat) : PollResult :=
  pollGo jobId responses maxWait 0 ((maxWait + 1) / 2)

/-- The Python signature has `max_wait: int = 300`. -/
def pollBackgroundJobDefault (jobId : String)
    (responses : Nat → JobResponse) : PollResult :=
  pollBackgroundJob jobId responses 300

theorem pollGo_skip (jobId : String) (responses : Nat → JobResponse)
    (maxWait : Nat) :
    ∀ k n fuel, (∀ m, m < k → nonterminal responses (n + m)) →
      pollGo jobId responses maxWait n (k + fuel) =
        pollGo jobId responses maxWait (n + k) fuel := by
  intro k
  induction k with
  | zero => intro n fuel _; simp
  | succ k ih =>
    intro n fuel h
    have h0 : nonterminal responses n := by
      simpa using h 0 (Nat.succ_pos k)
    have hstep : k + 1 + fuel = (k + fuel) + 1 := by omega
    rw [hstep]
    show pollGo jobId responses maxWait n ((k + fuel) + 1) = _
    rw [pollGo, if_neg h0.1, if_neg h0.2]
    have hshift : ∀ m, m < k → nonterminal responses (n + 1 + m) := by
      intro m hm
      have := h (m + 1) (by omega)
      simpa [Nat.add_assoc, Nat.add_comm 1 m] using this
    rw [ih (n + 1) fuel hshift]
    congr 1
    omega

/-- C1: behaviour of `_poll_background_job`, with poll `n` issued `2 * n`
seconds after the start (fixed 2-second interval). If the first terminal
status observed within the time budget is `completed`, the job's data
payload is returned; if it is `failed`, the call fails with the job-failure
error carrying the server-reported error (the Python `RuntimeError`); if
every poll inside the budget is non-terminal, the call fails with
`TimeoutError`. The default ceiling is 300 seconds. -/
theorem pollBackgroundJob_spec (jobId : String)
    (responses : Nat → JobResponse) (maxWait : Nat) :
    (∀ n, 2 * n < maxWait → (∀ m, m < n → nonterminal responses m) →
      respStatus (responses n) = some "completed" →
      pollBackgroundJob jobId responses maxWait =
        PollResult.completed (respData (responses n))) ∧
    (∀ n, 2 * n < maxWait → (∀ m, m < n → nonterminal responses m) →
      respStatus (responses n) = some "failed" →
      pollBackgroundJob jobId responses maxWait =
        PollResult.jobFailed jobId (responses n).error) ∧
    ((∀ m, 2 * m < maxWait → nonterminal responses m) →
      pollBackgroundJob jobId responses maxWait =
        PollResult.timedOut jobId maxWait) ∧
    pollBackgroundJobDefault jobId responses =
      pollBackgroundJob jobId responses 300 := by
  have fuel_eq : ∀ n, 2 * n < maxWait →
      (maxWait + 1) / 2 = n + ((maxWait + 1) / 2 - n - 1 + 1) := by
    intro n hn; omega
  refine ⟨?_, ?_, ?_, rfl⟩
  · intro n hn hpre hc
    unfold pollBackgroundJob
    rw [fuel_eq n hn,
      pollGo_skip jobId responses maxWait n 0 _ (fun m hm => by simpa using hpre m hm),
      pollGo]
    simp [hc]
  · intro n hn hpre hf
    unfold pollBackgroundJob
    rw [fuel_eq n hn,
      pollGo_skip jobId responses maxWait n 0 _ (fun m hm => by simpa using hpre m hm),
      pollGo]
    simp only [Nat.zero_add]
    rw [if_neg (by simp [hf]), if_pos hf]
  · intro hall
    unfold pollBackgroundJob
    have h := pollGo_skip jobId responses maxWait ((maxWait + 1) / 2) 0 0
      (fun m hm => by simpa using hall m (by omega))
    simpa [pollGo] using h

/-- C1 witness: a job that is `pending` on the first poll and `completed`
on the second, under a 10-second ceiling, returns the second response's
data payload. -/
theorem pollBackgroundJob_spec_witness :
    pollBackgroundJob "job-1"
      (fun n => if n = 0 then ⟨some ⟨some "pending", []⟩, none⟩
        else ⟨some ⟨some "completed", [("result", "ok")]⟩, none⟩) 10 =
      PollResult.completed ⟨some "completed", [("result", "ok")]⟩ := by
  have h := (pollBackgroundJob_spec "job-1"
      (fun n => if n = 0 then ⟨some ⟨some "pending", []⟩, none⟩
        else ⟨some ⟨some "completed", [("result", "ok")]⟩, none⟩) 10).1
    1 (by decide) (by decide) (by decide)
  simpa using h

/-! ## `PixelLabClient.generate_image` (pixellab_client.py)

JSON values as sent on the wire; Python dicts preserve insertion order and
are modelled as association lists. -/

inductive JVal where
  | null
  | str (s : String)
  | num (n : Int)
  | bool (b : Bool)
  | arr (elems : List JVal)
  | obj (fields : List (String × JVal))

def jIsNull : JVal → Bool
  | JVal.null => true
  | _ => false

def dictLookup : List (String × JVal) → String → Option JVal
  | [], _ => none
  | (k, v) :: rest, key => if k = key then some v else dictLookup rest key

/-- Request body built by `generate_image`:

```python
payload = dict of description and image_size (width, height)
if seed is not None: payload["seed"] = seed
if no_background: payload["no_background"] = True
if reference_images: payload["reference_images"] = reference_images
if style_image: payload["style_image"] = style_image
if style_options: payload["style_options"] = style_options
```

`seed` is tested with `is not None`; the remaining guards are Python
truthiness, so an empty list or dict is skipped just like `None`. -/
def generateImagePayload (description : String) (width height : Nat)
    (seed : Option Int) (noBackground : Bool)
    (referenceImages : Option (List JVal))
    (styleImage styleOptions : Option (List (String × JVal))) :
    List (String × JVal) :=
  [("description", JVal.str description),
   ("image_size", JVal.obj [("width", JVal.num (Int.ofNat width)),
                            ("height", JVal.num (Int.ofNat height))])]
  ++ (match seed with
      | some s => [("seed", JVal.num s)]
      | none => [])
  ++ (if noBackground then [("no_background", JVal.bool true)] else [])
  ++ (match referenceImages with
      | some (x :: xs) => [("reference_images", JVal.arr (x :: xs))]
      | _ => [])
  ++ (match styleImage with
      | some (x :: xs) => [("style_image", JVal.obj (x :: xs))]
      | _ => [])
  ++ (match styleOptions with
      | some (x :: xs) => [("style_options", JVal.obj (x :: xs))]
      | _ => [])

/-- The `data` sub-object of a successful `/generate-image-v2` response. -/
structure GenData where
  images : Option (List String)

/-- A successful HTTP response envelope as seen by `generate_image`. -/
structure GenEnvelope where
  data : Option GenData
  usage : Option (List (String × JVal))
  success : Option Bool

/-- The dict `generate_image` returns to its caller. -/
structure GenResult where
  images : List String
  usage : List (String × JVal)
  success : Bool

/-- Result extraction of `generate_image`:

```python
result = dict(
    images=response.get("data", dict()).get("images", []),
    usage=response.get("usage", dict()),
    success=response.get("success", False))
``` -/
def generateImageResult (r : GenEnvelope) : GenResult :=
  ⟨((r.data.getD ⟨none⟩).images).getD [], r.usage.getD [], r.success.getD false⟩

/-! ## `generate_gallery` (scripts/generate_gallery.py)

The driver reads `PIXELLAB_API_KEY`, aborts with `sys.exit(1)` when it is
falsy, otherwise creates the images directory, makes a best-effort balance
call (errors logged and swallowed), then iterates over the fixed
`GALLERY_IMAGES` list: each item issues one `generate_image` call; an
exception or an empty `images` list counts the item as failed; otherwise
the first image is decoded and written, on success appending a manifest
entry and counting a success, on failure counting a failure. Finally the
manifest is written.

Oracles: `gen n` is the outcome of the `generate_image` call for item `n`
(`none` when it raised), `writeOk n` tells whether the `open`/`write` of
the PNG file succeeded (decoding itself is the real `saveBase64ImageBytes`
above). I/O is recorded in an event trace; a file-write event is recorded
for the successfully written PNG. -/

structure GalleryConfig where
  id : String
  description : String
  width : Option Nat
  height : Option Nat
  seed : Option Int
deriving DecidableEq, Repr

/-- The fixed request list from scripts/generate_gallery.py. -/
def GALLERY_IMAGES : List GalleryConfig :=
  [⟨"wizard",
    "a mysterious pixel art wizard with a glowing staff and purple robes, fantasy RPG style",
    some 128, some 128, some 42⟩,
   ⟨"knight",
    "a brave pixel art knight in shining armor with a sword and shield, retro game style",
    some 128, some 128, some 123⟩,
   ⟨"dragon",
    "a fierce pixel art dragon breathing fire, classic 16-bit RPG style",
    some 128, some 128, some 456⟩,
   ⟨"spaceship",
    "a sleek pixel art spaceship with glowing engines, retro sci-fi arcade style",
    some 128, some 128, some 789⟩,
   ⟨"robot",
    "a friendly pixel art robot with antenna and digital eyes, cute retro style",
    some 128, some 128, some 101⟩,
   ⟨"treasure",
    "an open pixel art treasure chest overflowing with gold coins and gems, classic RPG style",
    some 128, some 128, some 202⟩]

/-- One entry of `metadata["images"]`; the wall-clock `generated_at`
timestamp is outside the embedding. -/
structure ManifestEntry where
  id : String
  filename : String
  description : String
  width : Nat
  height : Nat
  seed : Option Int
deriving DecidableEq, Repr

inductive Event where
  | exitEv (code : Nat)
  | mkdirEv
  | netBalance
  | logBalanceWarning
  | netGenerate (n : Nat)
  | fileWrite (name : String)
  | metadataWrite
deriving DecidableEq, Repr

def isGenEvent : Event → Bool
  | Event.netGenerate _ => true
  | _ => false

def isBalanceLog : Event → Bool
  | Event.logBalanceWarning => true
  | _ => false

def isNetworkEvent : Event → Bool
  | Event.netBalance => true
  | Event.netGenerate _ => true
  | _ => false

def isFsEvent : Event → Bool
  | Event.mkdirEv => true
  | Event.fileWrite _ => true
  | Event.metadataWrite => true
  | _ => false

def exitCodes (l : List Event) : List Nat :=
  l.filterMap fun e => match e with
    | Event.exitEv c => some c
    | _ => none

structure RunState where
  entries : List ManifestEntry
  successful : Nat
  failed : Nat
  events : List Event

/-- Python f-string building the output path name:
`f"id_widthxheight.png"` with the `.get(..., 128)` defaults. -/
def mkFilename (id : String) (w h : Nat) : String :=
  id ++ "_" ++ toString w ++ "x" ++ toString h ++ ".png"

def mkEntry (c : GalleryConfig) : ManifestEntry :=
  ⟨c.id, mkFilename c.id (c.width.getD 128) (c.height.getD 128),
    c.description, c.width.getD 128, c.height.getD 128, c.seed⟩

/-- Loop body of `generate_gallery` for item `n` with config `c`. -/
def processItem (gen : Nat → Option GenResult) (writeOk : Nat → Bool)
    (n : Nat) (c : GalleryConfig) (st : RunState) : RunState :=
  let ev := st.events ++ [Event.netGenerate n]
  match gen n with
  | none => ⟨st.entries, st.successful, st.failed + 1, ev⟩
  | some r =>
    match r.images with
    | [] => ⟨st.entries, st.successful, st.failed + 1, ev⟩
    | img :: _ =>
      if (saveBase64ImageBytes img.toList).isSome && writeOk n then
        ⟨st.entries ++ [mkEntry c], st.successful + 1, st.failed,
          ev ++ [Event.fileWrite
            (mkFilename c.id (c.width.getD 128) (c.height.getD 128))]⟩
      else
        ⟨st.entries, st.successful, st.failed + 1, ev⟩

def runItems (gen : Nat → Option GenResult) (writeOk : Nat → Bool) :
    List (Nat × GalleryConfig) → RunState → RunState
  | [], st => st
  | (n, c) :: rest, st =>
    runItems gen writeOk rest (processItem gen writeOk n c st)

/-- Whether item `n` fully succeeds (generation returned a non-empty image
list, the first image decodes, and the file write succeeds). -/
def itemOk (gen : Nat → Option GenResult) (writeOk : Nat → Bool)
    (n : Nat) : Bool :=
  match gen n with
  | none => false
  | some r =>
    match r.images with
    | [] => false
    | img :: _ => (saveBase64ImageBytes img.toList).isSome && writeOk n

/-- State before the per-item loop: directory creation and the balance
call already happened; a warning was logged when `get_balance` raised. -/
def initState (balanceFails : Bool) : RunState :=
  ⟨[], 0, 0, [Event.mkdirEv, Event.netBalance] ++
    (if balanceFails then [Event.logBalanceWarning] else [])⟩

/-- The full-run entry point. `apiKey` is `os.getenv("PIXELLAB_API_KEY")`,
`balanceFails` tells whether `get_balance` raised (the exception is caught
and logged). -/
def generateGallery (apiKey : Option String) (gen : Nat → Option GenResult)
    (writeOk : Nat → Bool) (balanceFails : Bool) : RunState :=
  if pyTruthyStr apiKey then
    ⟨(runItems gen writeOk GALLERY_IMAGES.enum (initState balanceFails)).entries,
     (runItems gen writeOk GALLERY_IMAGES.enum (initState balanceFails)).successful,
     (runItems gen writeOk GALLERY_IMAGES.enum (initState balanceFails)).failed,
     (runItems gen writeOk GALLERY_IMAGES.enum (initState balanceFails)).events ++
       [Event.metadataWrite]⟩
  else
    ⟨[], 0, 0, [Event.exitEv 1]⟩

/-- C5 counterexample: the claim "each optional field is present in the
body if and only if the caller provided it" fails in the if direction.
Here the caller provides `reference_images = []` (a provided, non-`None`
argument, `isSome`), yet Python's truthiness guard `if reference_images:`
skips the empty list and the key is absent from the body. -/
theorem generateImagePayload_provided_empty_absent :
    (some ([] : List JVal)).isSome = true ∧
    dictLookup
      (generateImagePayload "wizard" 64 64 none false (some []) none none)
      "reference_images" = none :=
  ⟨rfl, rfl⟩

/-- C5 amended: `description` and `image_size` are always present; `seed`
is present iff not `None`; `no_background` is present (with value `true`)
iff it is `true`; `reference_images`, `style_image` and `style_options`
are present iff provided and non-empty (Python truthiness). A key that is
absent is omitted entirely: no key is ever bound to JSON `null`. -/
theorem generateImagePayload_keys (d : String) (w h : Nat)
    (seed : Option Int) (nb : Bool) (ri : Option (List JVal))
    (si so : Option (List (String × JVal))) :
    dictLookup (generateImagePayload d w h seed nb ri si so) "description" =
      some (JVal.str d) ∧
    dictLookup (generateImagePayload d w h seed nb ri si so) "image_size" =
      some (JVal.obj [("width", JVal.num (Int.ofNat w)),
                      ("height", JVal.num (Int.ofNat h))]) ∧
    dictLookup (generateImagePayload d w h seed nb ri si so) "seed" =
      seed.map JVal.num ∧
    dictLookup (generateImagePayload d w h seed nb ri si so) "no_background" =
      (if nb then some (JVal.bool true) else none) ∧
    dictLookup (generateImagePayload d w h seed nb ri si so) "reference_images" =
      (match ri with
       | some (x :: xs) => some (JVal.arr (x :: xs))
       | _ => none) ∧
    dictLookup (generateImagePayload d w h seed nb ri si so) "style_image" =
      (match si with
       | some (x :: xs) => some (JVal.obj (x :: xs))
       | _ => none) ∧
    dictLookup (generateImagePayload d w h seed nb ri si so) "style_options" =
      (match so with
       | some (x :: xs) => some (JVal.obj (x :: xs))
       | _ => none) ∧
    (generateImagePayload d w h seed nb ri si so).all
      (fun kv => !jIsNull kv.2) = true := by
  rcases seed with _ | s <;> cases nb <;>
    rcases ri with _ | (_ | ⟨x, xs⟩) <;>
    rcases si with _ | (_ | ⟨y, ys⟩) <;>
    rcases so with _ | (_ | ⟨z, zs⟩) <;>
    simp [generateImagePayload, dictLookup, jIsNull]

/-- C6: `generate_image` extracts `images` from `data.images` (defaulting
to the empty list when `data` or `data.images` is missing), `usage` from
the envelope's `usage` (defaulting to the empty mapping), and `success`
from the envelope's success flag (defaulting to `False`); extraction is
total, so no missing substructure causes a failure. -/
theorem generateImage_result_extraction (env : GenEnvelope) :
    (generateImageResult env).images =
      (match env.data with
       | none => []
       | some d => d.images.getD []) ∧
    (generateImageResult env).usage = env.usage.getD [] ∧
    (generateImageResult env).success = env.success.getD false := by
  rcases env with ⟨data, usage, success⟩
  rcases data with _ | ⟨imgs⟩ <;> simp [generateImageResult]

theorem processItem_eq (gen : Nat → Option GenResult) (writeOk : Nat → Bool)
    (n : Nat) (c : GalleryConfig) (ents : List ManifestEntry) (s f : Nat)
    (ev : List Event) :
    processItem gen writeOk n c ⟨ents, s, f, ev⟩ =
      ⟨ents ++ (if itemOk gen writeOk n then [mkEntry c] else []),
       s + (if itemOk gen writeOk n then 1 else 0),
       f + (if itemOk gen writeOk n then 0 else 1),
       ev ++ [Event.netGenerate n] ++
         (if itemOk gen writeOk n then
            [Event.fileWrite
              (mkFilename c.id (c.width.getD 128) (c.height.getD 128))]
          else [])⟩ := by
  rcases hg : gen n with _ | r
  · simp [processItem, itemOk, hg]
  · rcases hi : r.images with _ | ⟨img, irest⟩
    · simp [processItem, itemOk, hg, hi]
    · simp only [processItem, itemOk, hg, hi]
      split
      · rename_i hcond
        simp [hcond]
      · rename_i hcond
        simp [hcond]

theorem runItems_entries (gen : Nat → Option GenResult) (writeOk : Nat → Bool) :
    ∀ (l : List (Nat × GalleryConfig)) (ents : List ManifestEntry)
      (s f : Nat) (ev : List Event),
      (runItems gen writeOk l ⟨ents, s, f, ev⟩).entries =
        ents ++ (l.filter (fun p => itemOk gen writeOk p.1)).map
          (fun p => mkEntry p.2) := by
  intro l
  induction l with
  | nil => intro ents s f ev; simp [runItems]
  | cons p rest ih =>
    intro ents s f ev
    rcases p with ⟨n, c⟩
    rw [runItems, processItem_eq, ih]
    by_cases hok : itemOk gen writeOk n = true <;> simp [hok]

theorem runItems_successful (gen : Nat → Option GenResult) (writeOk : Nat → Bool) :
    ∀ (l : List (Nat × GalleryConfig)) (ents : List ManifestEntry)
      (s f : Nat) (ev : List Event),
      (runItems gen writeOk l ⟨ents, s, f, ev⟩).successful =
        s + (l.filter (fun p => itemOk gen writeOk p.1)).length := by
  intro l
  induction l with
  | nil => intro ents s f ev; simp [runItems]
  | cons p rest ih =>
    intro ents s f ev
    rcases p with ⟨n, c⟩
    rw [runItems, processItem_eq, ih]
    by_cases hok : itemOk gen writeOk n = true <;> simp [hok] <;> omega

theorem runItems_failed (gen : Nat → Option GenResult) (writeOk : Nat → Bool) :
    ∀ (l : List (Nat × GalleryConfig)) (ents : List ManifestEntry)
      (s f : Nat) (ev : List Event),
      (runItems gen writeOk l ⟨ents, s, f, ev⟩).failed =
        f + (l.filter (fun p => !itemOk gen writeOk p.1)).length := by
  intro l
  induction l with
  | nil => intro ents s f ev; simp [runItems]
  | cons p rest ih =>
    intro ents s f ev
    rcases p with ⟨n, c⟩
    rw [runItems, processItem_eq, ih]
    by_cases hok : itemOk gen writeOk n = true <;> simp [hok] <;> omega

theorem runItems_counts (gen : Nat → Option GenResult) (writeOk : Nat → Bool) :
    ∀ (l : List (Nat × GalleryConfig)) (ents : List ManifestEntry)
      (s f : Nat) (ev : List Event),
      (runItems gen writeOk l ⟨ents, s, f, ev⟩).successful +
          (runItems gen writeOk l ⟨ents, s, f, ev⟩).failed =
        s + f + l.length := by
  intro l
  induction l with
  | nil => intro ents s f ev; simp [runItems]
  | cons p rest ih =>
    intro ents s f ev
    rcases p with ⟨n, c⟩
    rw [runItems, processItem_eq, ih]
    by_cases hok : itemOk gen writeOk n = true <;> simp [hok] <;> omega

theorem runItems_events (gen : Nat → Option GenResult) (writeOk : Nat → Bool) :
    ∀ (l : List (Nat × GalleryConfig)) (ents : List ManifestEntry)
      (s f : Nat) (ev : List Event),
      (runItems gen writeOk l ⟨ents, s, f, ev⟩).events =
        ev ++ (runItems gen writeOk l ⟨ents, s, f, ([] : List Event)⟩).events := by
  intro l
  induction l with
  | nil => intro ents s f ev; simp [runItems]
  | cons p rest ih =>
    intro ents s f ev
    rcases p with ⟨n, c⟩
    simp only [runItems, processItem_eq]
    rw [ih _ _ _
      (ev ++ [Event.netGenerate n] ++
        (if itemOk gen writeOk n then
          [Event.fileWrite
            (mkFilename c.id (c.width.getD 128) (c.height.getD 128))]
         else []))]
    rw [ih _ _ _
      (([] : List Event) ++ [Event.netGenerate n] ++
        (if itemOk gen writeOk n then
          [Event.fileWrite
            (mkFilename c.id (c.width.getD 128) (c.height.getD 128))]
         else []))]
    simp

theorem runItems_events_gen (gen : Nat → Option GenResult) (writeOk : Nat → Bool) :
    ∀ (l : List (Nat × GalleryConfig)) (ents : List ManifestEntry)
      (s f : Nat) (ev : List Event),
      ((runItems gen writeOk l ⟨ents, s, f, ev⟩).events).filter isGenEvent =
        ev.filter isGenEvent ++ l.map (fun p => Event.netGenerate p.1) := by
  intro l
  induction l with
  | nil => intro ents s f ev; simp [runItems]
  | cons p rest ih =>
    intro ents s f ev
    rcases p with ⟨n, c⟩
    rw [runItems, processItem_eq, ih]
    by_cases hok : itemOk gen writeOk n = true <;>
      simp [hok, List.filter_append, isGenEvent]

theorem generateGallery_truthy_eq (apiKey : Option String)
    (gen : Nat → Option GenResult) (writeOk : Nat → Bool) (b : Bool)
    (hk : pyTruthyStr apiKey = true) :
    generateGallery apiKey gen writeOk b =
      ⟨(runItems gen writeOk GALLERY_IMAGES.enum ⟨[], 0, 0, []⟩).entries,
       (runItems gen writeOk GALLERY_IMAGES.enum ⟨[], 0, 0, []⟩).successful,
       (runItems gen writeOk GALLERY_IMAGES.enum ⟨[], 0, 0, []⟩).failed,
       ([Event.mkdirEv, Event.netBalance] ++
          (if b then [Event.logBalanceWarning] else [])) ++
         (runItems gen writeOk GALLERY_IMAGES.enum ⟨[], 0, 0, []⟩).events ++
         [Event.metadataWrite]⟩ := by
  unfold generateGallery initState
  rw [if_pos hk]
  simp only [RunState.mk.injEq]
  refine ⟨?_, ?_, ?_, ?_⟩
  · rw [runItems_entries, runItems_entries]
  · rw [runItems_successful, runItems_successful]
  · rw [runItems_failed, runItems_failed]
  · rw [runItems_events]

/-- C2: for every run of the batch driver with a usable key, the manifest
entries are exactly the successful requests (generation returned an image,
the first image decoded, the file write succeeded), in input order, and
each entry carries the request's id, width, height and seed (together with
the derived filename and the description). -/
theorem generateGallery_manifest (apiKey : Option String)
    (gen : Nat → Option GenResult) (writeOk : Nat → Bool) (bal : Bool)
    (hk : pyTruthyStr apiKey = true) :
    (generateGallery apiKey gen writeOk bal).entries =
      (GALLERY_IMAGES.enum.filter (fun p => itemOk gen writeOk p.1)).map
        (fun p => mkEntry p.2) ∧
    ∀ c : GalleryConfig, mkEntry c =
      ⟨c.id, mkFilename c.id (c.width.getD 128) (c.height.getD 128),
        c.description, c.width.getD 128, c.height.getD 128, c.seed⟩ := by
  constructor
  · rw [generateGallery_truthy_eq apiKey gen writeOk bal hk]
    rw [runItems_entries]
    simp
  · intro c
    rfl

/-- C2 witness: a run in which every item succeeds (all generations return
the decodable image `"aGVsbG8="` and every write succeeds). -/
theorem generateGallery_manifest_witness :
    (generateGallery (some "key") (fun _ => some ⟨["aGVsbG8="], [], true⟩)
        (fun _ => true) false).entries =
      (GALLERY_IMAGES.enum.filter
          (fun p => itemOk (fun _ => some ⟨["aGVsbG8="], [], true⟩)
            (fun _ => true) p.1)).map (fun p => mkEntry p.2) :=
  (generateGallery_manifest (some "key")
    (fun _ => some ⟨["aGVsbG8="], [], true⟩) (fun _ => true) false
    (by decide)).1

/-- C4: an item whose generation result has an empty `images` list writes
no file, appends no manifest entry, is counted as one failure, and the
loop continues with the remaining items unchanged; such an item is never
`itemOk`. -/
theorem generateGallery_empty_images_skip (gen : Nat → Option GenResult)
    (writeOk : Nat → Bool) (n : Nat) (c : GalleryConfig)
    (rest : List (Nat × GalleryConfig)) (st : RunState) (r : GenResult)
    (hg : gen n = some r) (hi : r.images = []) :
    runItems gen writeOk ((n, c) :: rest) st =
      runItems gen writeOk rest
        ⟨st.entries, st.successful, st.failed + 1,
          st.events ++ [Event.netGenerate n]⟩ ∧
    itemOk gen writeOk n = false := by
  constructor
  · rw [runItems]
    congr 1
    rcases st with ⟨ents, s, f, ev⟩
    simp [processItem, hg, hi]
  · simp [itemOk, hg, hi]

/-- C4 witness: a generation oracle that always returns an empty image
list; the first item is skipped as a failure and the loop moves on. -/
theorem generateGallery_empty_images_skip_witness :
    runItems (fun _ => some ⟨[], [], true⟩) (fun _ => true)
        [(0, ⟨"wizard", "w", some 128, some 128, some 42⟩)] ⟨[], 0, 0, []⟩ =
      runItems (fun _ => some ⟨[], [], true⟩) (fun _ => true) []
        ⟨[], 0, 1, [Event.netGenerate 0]⟩ ∧
    itemOk (fun _ => some ⟨[], [], true⟩) (fun _ => true) 0 = false :=
  generateGallery_empty_images_skip (fun _ => some ⟨[], [], true⟩)
    (fun _ => true) 0 ⟨"wizard", "w", some 128, some 128, some 42⟩ []
    ⟨[], 0, 0, []⟩ ⟨[], [], true⟩ rfl rfl

/-- C7: with `PIXELLAB_API_KEY` unset (`os.getenv` returns `None`), the
full-run entry point exits immediately with status 1: the whole run is the
single non-zero exit event, with no network call and no filesystem
access. -/
theorem generateGallery_missing_key (gen : Nat → Option GenResult)
    (writeOk : Nat → Bool) (bal : Bool) :
    generateGallery none gen writeOk bal = ⟨[], 0, 0, [Event.exitEv 1]⟩ ∧
    exitCodes (generateGallery none gen writeOk bal).events = [1] ∧
    (exitCodes (generateGallery none gen writeOk bal).events).all
      (fun code => code != 0) = true ∧
    (generateGallery none gen writeOk bal).events.all
      (fun e => !(isNetworkEvent e || isFsEvent e)) = true :=
  ⟨rfl, rfl, rfl, rfl⟩

/-- C8: the balance check is best-effort. Whether or not `get_balance`
raises, the manifest entries, the success count and the failure tally are
unchanged, the non-logging event trace is unchanged, the per-item loop
still issues one generation call per request, and a failing balance call
is logged. -/
theorem generateGallery_balance_swallowed (apiKey : Option String)
    (gen : Nat → Option GenResult) (writeOk : Nat → Bool)
    (hk : pyTruthyStr apiKey = true) :
    ∀ b1 b2 : Bool,
      (generateGallery apiKey gen writeOk b1).successful =
        (generateGallery apiKey gen writeOk b2).successful ∧
      (generateGallery apiKey gen writeOk b1).failed =
        (generateGallery apiKey gen writeOk b2).failed ∧
      (generateGallery apiKey gen writeOk b1).entries =
        (generateGallery apiKey gen writeOk b2).entries ∧
      (generateGallery apiKey gen writeOk b1).events.filter
          (fun e => !isBalanceLog e) =
        (generateGallery apiKey gen writeOk b2).events.filter
          (fun e => !isBalanceLog e) ∧
      (generateGallery apiKey gen writeOk b1).events.filter isGenEvent =
        GALLERY_IMAGES.enum.map (fun p => Event.netGenerate p.1) ∧
      Event.logBalanceWarning ∈
        (generateGallery apiKey gen writeOk true).events := by
  intro b1 b2
  rw [generateGallery_truthy_eq apiKey gen writeOk b1 hk,
    generateGallery_truthy_eq apiKey gen writeOk b2 hk,
    generateGallery_truthy_eq apiKey gen writeOk true hk]
  refine ⟨rfl, rfl, rfl, ?_, ?_, ?_⟩
  · cases b1 <;> cases b2 <;>
      simp [List.filter_append, isBalanceLog]
  · have hR : ((runItems gen writeOk GALLERY_IMAGES.enum
        ⟨[], 0, 0, []⟩).events).filter isGenEvent =
        GALLERY_IMAGES.enum.map (fun p => Event.netGenerate p.1) := by
      rw [runItems_events_gen]
      simp
    cases b1 <;> simp [List.filter_append, isGenEvent, hR]
  · simp

/-- C8 witness: with a concrete key and a generation oracle that always
raises, the failure tally is the same whether or not the balance check
raised. -/
theorem generateGallery_balance_swallowed_witness :
    (generateGallery (some "key") (fun _ => none) (fun _ => true)
        true).failed =
      (generateGallery (some "key") (fun _ => none) (fun _ => true)
        false).failed :=
  (generateGallery_balance_swallowed (some "key") (fun _ => none)
    (fun _ => true) (by decide) true false).2.1

/-- C10: after a run with a usable key, the success count plus the failure
tally equals the number of requests in the fixed input list: every item
increments exactly one of the two counters. -/
theorem generateGallery_counts_total (apiKey : Option String)
    (gen : Nat → Option GenResult) (writeOk : Nat → Bool) (bal : Bool)
    (hk : pyTruthyStr apiKey = true) :
    (generateGallery apiKey gen writeOk bal).successful +
      (generateGallery apiKey gen writeOk bal).failed =
      GALLERY_IMAGES.length := by
  rw [generateGallery_truthy_eq apiKey gen writeOk bal hk]
  rw [show ((runItems gen writeOk GALLERY_IMAGES.enum
      ⟨[], 0, 0, []⟩).successful +
      (runItems gen writeOk GALLERY_IMAGES.enum ⟨[], 0, 0, []⟩).failed) =
      0 + 0 + GALLERY_IMAGES.enum.length from
    runItems_counts gen writeOk GALLERY_IMAGES.enum [] 0 0 []]
  simp

/-- C10 witness: a run in which every generation raises still accounts for
all six requests. -/
theorem generateGallery_counts_total_witness :
    (generateGallery (some "key") (fun _ => none) (fun _ => true)
        false).successful +
      (generateGallery (some "key") (fun _ => none) (fun _ => true)
        false).failed = GALLERY_IMAGES.length :=
  generateGallery_counts_total (some "key") (fun _ => none) (fun _ => true)
    false (by decide)

end Gallery
